import Mathlib

/-!
Shallow embedding of `src/player.js` from the dungeon-crawler repository
(player movement, tile interaction, power-ups, shield/collision resolution,
ability gate), together with theorems checking the specification's claims.

Conventions of the embedding:
* JS numbers used as integers are modeled as `Int` (health, scores, timers,
  grid coordinates, times); counters that are only ever decremented while
  positive are `Nat` (shield charge).
* A JS expression that can throw (reading a property of `undefined`) is
  modeled in `Except Unit`; `.error ()` is a thrown `TypeError`.
* JS array reads `a[i]` yield `none` (i.e. `undefined`) when `i` is negative
  or past the end.
* Phaser objects are reduced to the fields this module reads or writes:
  sprites become booleans (present/absent), the enemies group becomes a list
  of `(active, overlapping-the-player-this-frame)` pairs, the projectile
  group a count.  Purely cosmetic state (velocities, tween easing, the
  floating-point orbit angle of the shield sprite, text popups) is omitted.
-/

deriving instance DecidableEq for Except

namespace DungeonCrawler

/-- `const GRID_WIDTH = 20` (player.js line 7). -/
def GRID_WIDTH : Int := 20

/-- `const GRID_HEIGHT = 12` (player.js line 8). -/
def GRID_HEIGHT : Int := 12

/-- `const MOVEMENT_COOLDOWN = 200` (player.js line 2). -/
def MOVEMENT_COOLDOWN : Int := 200

/-- The dungeon grid: a row-major array of rows of tile codes. -/
abbrev Grid := List (List Nat)

/-- JS array read `l[i]`: `undefined` (`none`) when `i` is negative or at
least the length. -/
def listAt {α : Type} (l : List α) (i : Int) : Option α :=
  if 0 ≤ i then l.get? i.toNat else none

/-- JS read `dungeonGrid[y][x]`: if row `y` is out of range the row is
`undefined` and reading `[x]` of it throws (`.error ()`); otherwise the
cell value, `undefined` (`none`) when column `x` is out of range. -/
def jsTile (g : Grid) (y x : Int) : Except Unit (Option Nat) :=
  match listAt g y with
  | none => .error ()
  | some row => .ok (listAt row x)

/-- `[1, 2, 7, 13, 14].includes(tile)` (player.js line 76); `undefined` is
not a member. -/
def isCollidable (t : Option Nat) : Bool :=
  match t with
  | some n => n = 1 || n = 2 || n = 7 || n = 13 || n = 14
  | none => false

/-- `canMove` (player.js lines 74-78): reads the tile FIRST (so an
out-of-range row throws), then returns
`!isCollidable && newX >= 0 && newX < GRID_WIDTH && newY >= 0 && newY < GRID_HEIGHT`. -/
def canMove (g : Grid) (newX newY : Int) : Except Unit Bool :=
  match jsTile g newY newX with
  | .error e => .error e
  | .ok tile =>
      .ok (!(isCollidable tile) && decide (0 ≤ newX) && decide (newX < GRID_WIDTH)
            && decide (0 ≤ newY) && decide (newY < GRID_HEIGHT))

/-- The four arrow keys (`scene.cursors`), `isDown` each. -/
structure Cursors where
  left : Bool
  right : Bool
  up : Bool
  down : Bool
  deriving DecidableEq, Repr

/-- A direction selected by the input chain. -/
inductive Dir
  | left
  | right
  | up
  | down
  deriving DecidableEq, Repr

/-- Horizontal displacement of a selected direction (`newGridX--` / `newGridX++`). -/
def dirDx : Dir → Int
  | .left => -1
  | .right => 1
  | .up => 0
  | .down => 0

/-- Vertical displacement of a selected direction (`newGridY--` / `newGridY++`). -/
def dirDy : Dir → Int
  | .left => 0
  | .right => 0
  | .up => -1
  | .down => 1

/-- Wind-gust block (player.js lines 86-99): reads the current tile; on a
gust tile (9 right, 10 left) whose destination passes `canMove`, yields the
displacement applied to `newGridX` and `moved = true`.  Result: (delta to
`newGridX`, `moved` flag contributed by the wind). -/
def windStep (g : Grid) (gridX gridY : Int) : Except Unit (Int × Bool) :=
  match jsTile g gridY gridX with
  | .error e => .error e
  | .ok t =>
      if t = some 9 then
        match canMove g (gridX + 1) gridY with
        | .error e => .error e
        | .ok ok => .ok (if ok then (1, true) else (0, false))
      else if t = some 10 then
        match canMove g (gridX - 1) gridY with
        | .error e => .error e
        | .ok ok => .ok (if ok then (-1, true) else (0, false))
      else .ok (0, false)

/-- The `if/else if` arrow-key chain (player.js lines 102-118): the first
direction whose key is down AND whose neighbour of the CURRENT cell
(`player.gridX`/`player.gridY`, not the wind-shifted cell) passes `canMove`
wins; `canMove` is only evaluated when the key is down (JS `&&`). -/
def dirMove (g : Grid) (gridX gridY : Int) (c : Cursors) : Except Unit (Option Dir) :=
  match (if c.left then canMove g (gridX - 1) gridY else .ok false) with
  | .error e => .error e
  | .ok true => .ok (some .left)
  | .ok false =>
      match (if c.right then canMove g (gridX + 1) gridY else .ok false) with
      | .error e => .error e
      | .ok true => .ok (some .right)
      | .ok false =>
          match (if c.up then canMove g gridX (gridY - 1) else .ok false) with
          | .error e => .error e
          | .ok true => .ok (some .up)
          | .ok false =>
              match (if c.down then canMove g gridX (gridY + 1) else .ok false) with
              | .error e => .error e
              | .ok true => .ok (some .down)
              | .ok false => .ok none

/-- Outcome of the movement-selection part of `updatePlayer`: the `moved`
flag and the final `newGridX`/`newGridY` handed to the tween. -/
structure MoveResult where
  moved : Bool
  newGridX : Int
  newGridY : Int
  deriving DecidableEq, Repr

/-- Movement selection in `updatePlayer` (player.js lines 80-118):
`newGridX`/`newGridY` start at the player's cell, the wind block may shift
`newGridX` and set `moved`, and the arrow-key chain then applies its
displacement ON TOP of the wind-shifted coordinates (the JS mutates
`newGridX`/`newGridY` incrementally). -/
def selectMove (g : Grid) (gridX gridY : Int) (c : Cursors) : Except Unit MoveResult :=
  match windStep g gridX gridY with
  | .error e => .error e
  | .ok wind =>
      match dirMove g gridX gridY c with
      | .error e => .error e
      | .ok (some dir) => .ok ⟨true, gridX + wind.1 + dirDx dir, gridY + dirDy dir⟩
      | .ok none => .ok ⟨wind.2, gridX + wind.1, gridY⟩

/-- The scene and game state, restricted to the fields player.js reads or
writes.  `shieldSprite` is the presence of `scene.shieldSprite`; `enemies`
holds one `(active, overlapping)` pair per member of `scene.enemies`;
`isPaused` is `scene.physics.world.isPaused`; `keyPresent` is `scene.key`
being non-null. -/
structure Scene where
  dungeonGrid : Option Grid
  gridX : Int
  gridY : Int
  lastMoveTime : Int
  playerHealth : Int
  score : Int
  hasKey : Bool
  shieldHP : Nat
  shieldSprite : Bool
  tripleShotTimer : Int
  speedBoostTimer : Int
  slowShotTimer : Int
  chargeLevel : Int
  gameOver : Bool
  isPaused : Bool
  enemies : List (Bool × Bool)
  enemyProjectiles : Nat
  powerUpSprites : List (Int × Int)
  keyPresent : Bool
  deriving DecidableEq, Repr

/-- JS write `dungeonGrid[y][x] = v`: an out-of-range row throws; this
module only writes in-range columns, so a column write is `List.set`
(writes at negative columns, which JS would store as a plain property,
leave the row unchanged). -/
def setCellJS (g : Grid) (y x : Int) (v : Nat) : Except Unit Grid :=
  match listAt g y with
  | none => .error ()
  | some row =>
      if 0 ≤ x then .ok (g.set y.toNat (row.set x.toNat v)) else .ok g

/-- `powerUpSprites.find` + `filter(s => s !== sprite)` (player.js lines
192-196): removes the first sprite anchored at the collected cell, if any
(defensive no-op otherwise). -/
def removeFirst (l : List (Int × Int)) (x y : Int) : List (Int × Int) :=
  match l with
  | [] => []
  | p :: rest => if p.1 = x && p.2 = y then rest else p :: removeFirst rest x y

/-- `applyPowerUp` (player.js lines 188-221): clears the grid cell to 0,
removes the matching pickup sprite, then applies the effect — shield
(tile 19) sets `shieldHP = 3` and ensures the shield sprite exists; tiles
20/21/22 set their timer to 30000 (absolute overwrite); heal (tile 23)
sets `playerHealth = min(playerHealth + 25, 100)`. -/
def applyPowerUp (s : Scene) (tile : Nat) (x y : Int) : Except Unit Scene :=
  match s.dungeonGrid with
  | none => .error ()
  | some g =>
      match setCellJS g y x 0 with
      | .error e => .error e
      | .ok g' =>
          let s1 : Scene := { s with dungeonGrid := some g',
                                     powerUpSprites := removeFirst s.powerUpSprites x y }
          .ok (if tile = 19 then { s1 with shieldHP := 3, shieldSprite := true }
               else if tile = 20 then { s1 with tripleShotTimer := 30000 }
               else if tile = 21 then { s1 with speedBoostTimer := 30000 }
               else if tile = 22 then { s1 with slowShotTimer := 30000 }
               else if tile = 23 then { s1 with playerHealth := min (s1.playerHealth + 25) 100 }
               else s1)

/-- `handleTileInteraction` (player.js lines 158-179): reads the landed
tile; spike/fire pit (5/8) subtract 20 health and set the over state when
health drops to 0 or below; treasure (6) adds 50 score and clears the
cell; tiles 19-23 delegate to `applyPowerUp`; anything else (including an
`undefined` read) is a no-op. -/
def handleTileInteraction (s : Scene) (x y : Int) : Except Unit Scene :=
  match s.dungeonGrid with
  | none => .error ()
  | some g =>
      match jsTile g y x with
      | .error e => .error e
      | .ok none => .ok s
      | .ok (some t) =>
          if t = 5 || t = 8 then
            let h := s.playerHealth - 20
            .ok { s with playerHealth := h,
                         gameOver := if h ≤ 0 then true else s.gameOver,
                         isPaused := if h ≤ 0 then true else s.isPaused }
          else if t = 6 then
            match setCellJS g y x 0 with
            | .error e => .error e
            | .ok g' => .ok { s with score := s.score + 50, dungeonGrid := some g' }
          else if 19 ≤ t && t ≤ 23 then applyPowerUp s t x y
          else .ok s

/-- Tween `onComplete` (player.js lines 128-134): commit the new grid cell,
snap the position (cosmetic, omitted), then run `handleTileInteraction` at
the committed cell. -/
def commitMove (s : Scene) (newGridX newGridY : Int) : Except Unit Scene :=
  handleTileInteraction { s with gridX := newGridX, gridY := newGridY } newGridX newGridY

/-- Shield visual maintenance (player.js lines 231-243): while
`shieldHP > 0` the sprite is (re)created and orbited (orbit position is
cosmetic, omitted); otherwise an existing sprite is destroyed. -/
def updateShieldVisual (s : Scene) : Scene :=
  if 0 < s.shieldHP then { s with shieldSprite := true }
  else if s.shieldSprite then { s with shieldSprite := false }
  else s

/-- One enemy of the `enemies.children.each` loop (player.js lines
245-263).  For an active, overlapping enemy: with shield charge the charge
drops by 1, the enemy is destroyed, and the sprite is destroyed the moment
the charge reaches exactly 0; without shield the enemy is destroyed and
the player loses 10 health, entering the over state at 0 or below.
Returns the updated scene and the enemy if it survived. -/
def resolveEnemy (s : Scene) (e : Bool × Bool) : Scene × Option (Bool × Bool) :=
  if e.1 && e.2 then
    if 0 < s.shieldHP then
      let hp := s.shieldHP - 1
      ({ s with shieldHP := hp,
                shieldSprite := if hp = 0 && s.shieldSprite then false else s.shieldSprite },
       none)
    else
      let h := s.playerHealth - 10
      ({ s with playerHealth := h,
                gameOver := if h ≤ 0 then true else s.gameOver,
                isPaused := if h ≤ 0 then true else s.isPaused },
       none)
  else (s, some e)

/-- One fold step of the enemy loop: resolve the enemy against the scene
accumulated so far and append it to the survivors when it was not
destroyed. -/
def resolveStep (acc : Scene × List (Bool × Bool)) (e : Bool × Bool) :
    Scene × List (Bool × Bool) :=
  let r := resolveEnemy acc.1 e
  (r.1, match r.2 with
        | some e' => acc.2 ++ [e']
        | none => acc.2)

/-- The whole `enemies.children.each` loop: fold `resolveEnemy` across the
group in enumeration order, keeping the survivors. -/
def resolveEnemies (s : Scene) : Scene :=
  let r := s.enemies.foldl resolveStep (s, [])
  { r.1 with enemies := r.2 }

/-- XBite gate (player.js lines 265-271): on a just-pressed X with
`chargeLevel >= 1000`, clear all enemies and enemy projectiles and reset
the charge to 0; otherwise nothing. -/
def abilityGate (s : Scene) (xJustDown : Bool) : Scene :=
  if xJustDown && decide (1000 ≤ s.chargeLevel) then
    { s with enemies := [], enemyProjectiles := 0, chargeLevel := 0 }
  else s

/-- `updateShieldAndCollisions` (player.js lines 228-272): shield visual,
then the enemy-overlap loop, then the ability gate. -/
def updateShieldAndCollisions (s : Scene) (xJustDown : Bool) : Scene :=
  abilityGate (resolveEnemies (updateShieldVisual s)) xJustDown

/-- Per-frame inputs of `updatePlayer` beyond the scene itself: the cursor
keys, whether the player sprite overlaps the key pickup this frame, and
the `JustDown` edge of the X key. -/
structure Inputs where
  cursors : Cursors
  keyOverlap : Bool
  xJustDown : Bool
  deriving DecidableEq, Repr

/-- Result of one `updatePlayer` call: the scene after the synchronous
part, the destination handed to the tween when a move was initiated
(committed later by `commitMove`), and whether the call reached
`updateShieldAndCollisions` (player.js line 149). -/
structure UpdateOut where
  scene : Scene
  pending : Option (Int × Int)
  collisionsRan : Bool
  deriving DecidableEq, Repr

/-- Body of `updatePlayer` past the two early returns (player.js lines
74-149): select a move; on a move, start the tween and record
`lastMoveTime = time` AT INITIATION (line 136); then the key pickup; then
`updateShieldAndCollisions`. -/
def updatePlayerCore (s : Scene) (g : Grid) (inp : Inputs) (time : Int) :
    Except Unit UpdateOut :=
  match selectMove g s.gridX s.gridY inp.cursors with
  | .error e => .error e
  | .ok mv =>
      let s1 := if mv.moved then { s with lastMoveTime := time } else s
      let s2 := if s1.keyPresent && inp.keyOverlap
                then { s1 with hasKey := true, keyPresent := false } else s1
      .ok ⟨updateShieldAndCollisions s2 inp.xJustDown,
           if mv.moved then some (mv.newGridX, mv.newGridY) else none,
           true⟩

/-- `updatePlayer` (player.js lines 63-150): returns untouched (skipping
EVERYTHING below, including `updateShieldAndCollisions`) when
`time - lastMoveTime < MOVEMENT_COOLDOWN` (line 67) or the grid is absent
(line 71); otherwise runs the core. -/
def updatePlayer (s : Scene) (inp : Inputs) (time : Int) : Except Unit UpdateOut :=
  if time - s.lastMoveTime < MOVEMENT_COOLDOWN then .ok ⟨s, none, false⟩
  else
    match s.dungeonGrid with
    | none => .ok ⟨s, none, false⟩
    | some g => updatePlayerCore s g inp time

/-- Number of grid-cell transitions initiated by one `updatePlayer` call
(a thrown frame initiates none). -/
def initiated (r : Except Unit UpdateOut) : Nat :=
  match r with
  | .ok u => if u.pending.isSome then 1 else 0
  | .error _ => 0

/-- The scene after one `updatePlayer` call (unchanged on a throw, since
the only state writes precede no throwing read). -/
def afterScene (s : Scene) (r : Except Unit UpdateOut) : Scene :=
  match r with
  | .ok u => u.scene
  | .error _ => s

/-! ### Concrete fixtures used by counterexamples and witnesses -/

/-- A row of 20 floor tiles. -/
def floorRow : List Nat := List.replicate 20 0

/-- A 12-row all-floor 20×12 grid. -/
def gridBase : Grid := List.replicate 12 floorRow

/-- A baseline scene: player at (5,5) on the all-floor grid, full health,
no buffs, no enemies, cooldown long expired. -/
def baseScene : Scene :=
  { dungeonGrid := some gridBase, gridX := 5, gridY := 5, lastMoveTime := 0,
    playerHealth := 100, score := 0, hasKey := false, shieldHP := 0,
    shieldSprite := false, tripleShotTimer := 0, speedBoostTimer := 0,
    slowShotTimer := 0, chargeLevel := 0, gameOver := false, isPaused := false,
    enemies := [], enemyProjectiles := 0, powerUpSprites := [], keyPresent := false }

/-- No arrow key held. -/
def cNone : Cursors := ⟨false, false, false, false⟩

/-- Only the right arrow held. -/
def cRight : Cursors := ⟨false, true, false, false⟩

/-- Inputs with no keys at all. -/
def inpNone : Inputs := ⟨cNone, false, false⟩

/-- Inputs with only the right arrow held. -/
def inpRight : Inputs := ⟨cRight, false, false⟩

/-- Grid for the wind/input combination bug: row 5 has a wind-gust-right
tile (9) at column 5, floor at column 6, and a wall (1) at column 7. -/
def gEx3 : Grid := gridBase.set 5 ((floorRow.set 5 9).set 7 1)

/-- Grid for the wind/input precedence counterexample: row 5 has a
wind-gust-right tile (9) at column 5 and floor everywhere else. -/
def gEx4 : Grid := gridBase.set 5 (floorRow.set 5 9)

/-- Grid with a spike (hazard code 5) at cell (6,5). -/
def gHaz : Grid := gridBase.set 5 (floorRow.set 6 5)

/-- Grid with a fire pit (hazard code 8) at cell (6,5). -/
def gFire : Grid := gridBase.set 5 (floorRow.set 6 8)

/-- Scene whose grid is `gEx3` (wind tile under the player, wall two cells
to the right). -/
def sEx3 : Scene := { baseScene with dungeonGrid := some gEx3 }

/-- Scene on a cooldown-active frame carrying an overlapping enemy, one
shield charge, and a full ability charge. -/
def sC1 : Scene :=
  { baseScene with lastMoveTime := 100, shieldHP := 1, shieldSprite := true,
                   enemies := [(true, true)], chargeLevel := 1000 }

/-- Inputs with the ability key just pressed and no arrows. -/
def inpX : Inputs := ⟨cNone, false, true⟩

/-- A scene already in the terminal over state (health below zero) standing
next to the spike of `gHaz`. -/
def sDead : Scene :=
  { baseScene with dungeonGrid := some gHaz, gameOver := true, isPaused := true,
                   playerHealth := -5 }

/-- A scene at 15 health standing next to the spike of `gHaz`. -/
def sLow : Scene := { baseScene with dungeonGrid := some gHaz, playerHealth := 15 }

/-- The timer/charge field a power-up tile overwrites (shield charge for
tile 19, the three 30000 ms timers for tiles 20-22). -/
def powerUpField (tile : Nat) (s : Scene) : Int :=
  if tile = 19 then (s.shieldHP : Int)
  else if tile = 20 then s.tripleShotTimer
  else if tile = 21 then s.speedBoostTimer
  else if tile = 22 then s.slowShotTimer
  else 0

/-- The single-application value of that field: 3 for the shield, 30000 for
the timers. -/
def powerUpValue (tile : Nat) : Int := if tile = 19 then 3 else 30000

/-- One frame of the shield-absorption scenario: exactly one active enemy
overlaps the player and the ability key is not pressed. -/
def shieldScenarioStep (s : Scene) : Scene :=
  updateShieldAndCollisions { s with enemies := [(true, true)] } false

/-- Scene used as the terminal-state collision witness: over state set and
one overlapping enemy. -/
def tDead : Scene := { baseScene with gameOver := true, enemies := [(true, true)] }

/-- Scene after a triple-shot pickup from `baseScene`. -/
def sP1 : Scene := { baseScene with tripleShotTimer := 30000 }

/-- Scene with two shield charges used by the shield-absorption witness. -/
def sShield : Scene := { baseScene with shieldHP := 2, shieldSprite := true }

/-- Scene at 15 health on the fire-pit grid. -/
def tFire : Scene := { baseScene with dungeonGrid := some gFire, playerHealth := 15 }

/-- Unshielded scene with one overlapping enemy. -/
def uOver : Scene := { baseScene with enemies := [(true, true)] }

/-- Scene with ability charge one short of the threshold. -/
def s999 : Scene := { baseScene with chargeLevel := 999 }

/-- Scene at the ability threshold with a non-overlapping enemy and two
enemy projectiles alive. -/
def t1000 : Scene :=
  { baseScene with chargeLevel := 1000, enemies := [(true, false)], enemyProjectiles := 2 }

/-! ### Helper lemmas -/

/-- A cooldown-active frame is a full no-op of `updatePlayer`. -/
theorem updatePlayer_gated (s : Scene) (inp : Inputs) (t : Int)
    (h : t - s.lastMoveTime < 200) :
    updatePlayer s inp t = .ok ⟨s, none, false⟩ := by
  unfold updatePlayer MOVEMENT_COOLDOWN
  rw [if_pos h]

/-- `resolveEnemy` never touches `lastMoveTime`. -/
theorem resolveEnemy_lastMoveTime (s : Scene) (e : Bool × Bool) :
    (resolveEnemy s e).1.lastMoveTime = s.lastMoveTime := by
  unfold resolveEnemy
  split_ifs <;> rfl

/-- `resolveEnemy` never touches `chargeLevel`. -/
theorem resolveEnemy_chargeLevel (s : Scene) (e : Bool × Bool) :
    (resolveEnemy s e).1.chargeLevel = s.chargeLevel := by
  unfold resolveEnemy
  split_ifs <;> rfl

/-- Projections preserved by `resolveEnemy` are preserved by the whole
enemy fold. -/
theorem foldl_resolveStep_proj {α : Type} (f : Scene → α)
    (hf : ∀ s e, f (resolveEnemy s e).1 = f s) (l : List (Bool × Bool)) :
    ∀ p : Scene × List (Bool × Bool), f (List.foldl resolveStep p l).1 = f p.1 := by
  induction l with
  | nil => intro p; rfl
  | cons e l ih =>
      intro p
      rw [List.foldl_cons, ih]
      exact hf p.1 e

/-- Projections preserved by `resolveEnemy` and insensitive to the
`enemies` field are preserved by `resolveEnemies`. -/
theorem resolveEnemies_proj {α : Type} (f : Scene → α)
    (hf : ∀ s e, f (resolveEnemy s e).1 = f s)
    (hen : ∀ (s : Scene) (l : List (Bool × Bool)), f { s with enemies := l } = f s)
    (s : Scene) : f (resolveEnemies s) = f s := by
  unfold resolveEnemies
  rw [hen]
  exact foldl_resolveStep_proj f hf s.enemies (s, [])

/-- The shield-visual phase never touches `lastMoveTime`. -/
theorem updateShieldVisual_lastMoveTime (s : Scene) :
    (updateShieldVisual s).lastMoveTime = s.lastMoveTime := by
  unfold updateShieldVisual
  split_ifs <;> rfl

/-- The shield-visual phase never touches `chargeLevel`. -/
theorem updateShieldVisual_chargeLevel (s : Scene) :
    (updateShieldVisual s).chargeLevel = s.chargeLevel := by
  unfold updateShieldVisual
  split_ifs <;> rfl

/-- The ability gate never touches `lastMoveTime`. -/
theorem abilityGate_lastMoveTime (s : Scene) (b : Bool) :
    (abilityGate s b).lastMoveTime = s.lastMoveTime := by
  unfold abilityGate
  split_ifs <;> rfl

/-- `updateShieldAndCollisions` never touches `lastMoveTime`. -/
theorem USAC_lastMoveTime (s : Scene) (b : Bool) :
    (updateShieldAndCollisions s b).lastMoveTime = s.lastMoveTime := by
  unfold updateShieldAndCollisions
  rw [abilityGate_lastMoveTime,
      resolveEnemies_proj Scene.lastMoveTime resolveEnemy_lastMoveTime
        (fun _ _ => rfl) (updateShieldVisual s),
      updateShieldVisual_lastMoveTime]

/-- The enemy loop and visual phase never touch `chargeLevel`. -/
theorem preGate_chargeLevel (s : Scene) :
    (resolveEnemies (updateShieldVisual s)).chargeLevel = s.chargeLevel := by
  rw [resolveEnemies_proj Scene.chargeLevel resolveEnemy_chargeLevel
        (fun _ _ => rfl) (updateShieldVisual s),
      updateShieldVisual_chargeLevel]

/-- Below the threshold the ability gate is the identity. -/
theorem abilityGate_below (s : Scene) (b : Bool) (h : s.chargeLevel < 1000) :
    abilityGate s b = s := by
  unfold abilityGate
  rw [if_neg]
  simp [not_le.mpr h]

/-- At or above the threshold a pressed ability gate clears the hostiles
and resets the charge. -/
theorem abilityGate_fire (s : Scene) (h : 1000 ≤ s.chargeLevel) :
    abilityGate s true = { s with enemies := [], enemyProjectiles := 0, chargeLevel := 0 } := by
  unfold abilityGate
  rw [if_pos]
  simp [h]

/-- The ability gate never touches `shieldSprite`. -/
theorem abilityGate_shieldSprite (s : Scene) (b : Bool) :
    (abilityGate s b).shieldSprite = s.shieldSprite := by
  unfold abilityGate
  split_ifs <;> rfl

/-- The ability gate never touches `shieldHP`. -/
theorem abilityGate_shieldHP (s : Scene) (b : Bool) :
    (abilityGate s b).shieldHP = s.shieldHP := by
  unfold abilityGate
  split_ifs <;> rfl

/-- After the visual phase the sprite is present iff the shield has
charge. -/
theorem updateShieldVisual_sprite_inv (s : Scene) :
    (updateShieldVisual s).shieldSprite = decide (0 < (updateShieldVisual s).shieldHP) := by
  unfold updateShieldVisual
  split_ifs with h1 h2
  · simp [h1]
  · simp [h1]
  · simp only [Bool.not_eq_true] at h2
    simp [h1, h2]

/-- `resolveEnemy` keeps the sprite-iff-charge invariant. -/
theorem resolveEnemy_sprite_inv (s : Scene) (e : Bool × Bool)
    (h : s.shieldSprite = decide (0 < s.shieldHP)) :
    (resolveEnemy s e).1.shieldSprite = decide (0 < (resolveEnemy s e).1.shieldHP) := by
  unfold resolveEnemy
  by_cases he : (e.1 && e.2) = true
  · by_cases hp : 0 < s.shieldHP
    · have hs : s.shieldSprite = true := by rw [h]; simp [hp]
      simp only [he, if_true, hp, hs]
      cases hhp : s.shieldHP - 1 <;> simp
    · have h0 : s.shieldHP = 0 := Nat.eq_zero_of_not_pos hp
      have hs : s.shieldSprite = false := by rw [h]; simp [h0]
      simp [he, hp, hs, h0]
  · simp [he, h]

/-- The enemy fold keeps the sprite-iff-charge invariant. -/
theorem foldl_resolveStep_sprite (l : List (Bool × Bool)) :
    ∀ p : Scene × List (Bool × Bool),
      p.1.shieldSprite = decide (0 < p.1.shieldHP) →
      (List.foldl resolveStep p l).1.shieldSprite
        = decide (0 < (List.foldl resolveStep p l).1.shieldHP) := by
  induction l with
  | nil => intro p h; exact h
  | cons e l ih =>
      intro p h
      rw [List.foldl_cons]
      exact ih (resolveStep p e) (resolveEnemy_sprite_inv p.1 e h)

/-- After a whole `updateShieldAndCollisions` call the sprite is present
iff the shield has charge. -/
theorem USAC_sprite_inv (s : Scene) (b : Bool) :
    (updateShieldAndCollisions s b).shieldSprite
      = decide (0 < (updateShieldAndCollisions s b).shieldHP) := by
  unfold updateShieldAndCollisions
  rw [abilityGate_shieldSprite, abilityGate_shieldHP]
  unfold resolveEnemies
  exact foldl_resolveStep_sprite (updateShieldVisual s).enemies
    (updateShieldVisual s, []) (updateShieldVisual_sprite_inv s)

/-- Record-eta: replacing `enemies` by its own value changes nothing. -/
theorem scene_eta_enemies (s : Scene) (l : List (Bool × Bool)) (h : s.enemies = l) :
    { s with enemies := l } = s := by
  rw [← h]

/-- A scene with no enemies, charge below threshold, and the sprite
invariant is a fixed point of `updateShieldAndCollisions`. -/
theorem USAC_noop (u : Scene) (he : u.enemies = []) (hc : u.chargeLevel < 1000)
    (hsp : u.shieldSprite = decide (0 < u.shieldHP)) (b : Bool) :
    updateShieldAndCollisions u b = u := by
  have hv : updateShieldVisual u = u := by
    unfold updateShieldVisual
    by_cases h0 : 0 < u.shieldHP
    · rw [if_pos h0]
      have ht : u.shieldSprite = true := by rw [hsp]; simp [h0]
      rw [← ht]
    · rw [if_neg h0]
      have ht : u.shieldSprite = false := by rw [hsp]; simp [h0]
      rw [ht]
      simp
  have hr : resolveEnemies u = u := by
    unfold resolveEnemies
    rw [he]
    exact scene_eta_enemies u [] he
  unfold updateShieldAndCollisions
  rw [hv, hr]
  exact abilityGate_below u b hc

/-- Landing on a spike (5) or fire pit (8) subtracts 20 health and sets the
over state when the result is at or below zero. -/
theorem handleTile_hazard (s : Scene) (g : Grid) (x y : Int) (c : Nat)
    (hg : s.dungeonGrid = some g) (ht : jsTile g y x = .ok (some c))
    (hc : c = 5 ∨ c = 8) :
    handleTileInteraction s x y
      = .ok { s with playerHealth := s.playerHealth - 20,
                     gameOver := if s.playerHealth - 20 ≤ 0 then true else s.gameOver,
                     isPaused := if s.playerHealth - 20 ≤ 0 then true else s.isPaused } := by
  unfold handleTileInteraction
  rw [hg]
  simp only [ht]
  rcases hc with rfl | rfl <;> simp

/-- One unshielded overlap: the enemy is destroyed and the player loses 10
health, entering the over state at or below zero. -/
theorem USAC_one_overlap_no_shield (t : Scene)
    (hs : t.shieldHP = 0) (he : t.enemies = [(true, true)]) :
    (updateShieldAndCollisions t false).playerHealth = t.playerHealth - 10
      ∧ (updateShieldAndCollisions t false).gameOver
          = (if t.playerHealth - 10 ≤ 0 then true else t.gameOver)
      ∧ (updateShieldAndCollisions t false).enemies = [] := by
  by_cases hsp : t.shieldSprite = true <;>
    simp [updateShieldAndCollisions, updateShieldVisual, resolveEnemies, resolveStep,
          resolveEnemy, abilityGate, hs, he, hsp]

/-- A successful power-up application overwrites its timer/charge field
with the fixed single-application value. -/
theorem applyPowerUp_overwrites (s s' : Scene) (tile : Nat) (x y : Int)
    (hm : tile = 19 ∨ tile = 20 ∨ tile = 21 ∨ tile = 22)
    (h : applyPowerUp s tile x y = .ok s') :
    powerUpField tile s' = powerUpValue tile := by
  unfold applyPowerUp at h
  cases hdg : s.dungeonGrid with
  | none => rw [hdg] at h; simp at h
  | some g =>
      rw [hdg] at h
      cases hsc : setCellJS g y x 0 with
      | error e => simp [hsc] at h
      | ok g' =>
          rcases hm with rfl | rfl | rfl | rfl <;>
            (simp [hsc] at h; subst h; simp [powerUpField, powerUpValue])

/-- One shield-scenario frame with positive charge: the charge drops by 1,
the enemy dies, health is untouched, and the sprite survives iff charge
remains. -/
theorem shieldStep_pos (s : Scene) (k : Nat) (h : s.shieldHP = k + 1) :
    shieldScenarioStep s
      = { s with shieldHP := k, shieldSprite := decide (0 < k), enemies := [] } := by
  cases k with
  | zero =>
      simp [shieldScenarioStep, updateShieldAndCollisions, updateShieldVisual,
            resolveEnemies, resolveStep, resolveEnemy, abilityGate, h]
  | succ n =>
      simp [shieldScenarioStep, updateShieldAndCollisions, updateShieldVisual,
            resolveEnemies, resolveStep, resolveEnemy, abilityGate, h]

/-- One shield-scenario frame with no charge: the enemy dies and the player
loses 10 health. -/
theorem shieldStep_zero_proj (s : Scene) (h : s.shieldHP = 0) :
    (shieldScenarioStep s).playerHealth = s.playerHealth - 10
      ∧ (shieldScenarioStep s).enemies = [] := by
  by_cases hsp : s.shieldSprite = true <;>
    simp [shieldScenarioStep, updateShieldAndCollisions, updateShieldVisual,
          resolveEnemies, resolveStep, resolveEnemy, abilityGate, h, hsp]

/-- Iterating the shield scenario from charge `k + 1` for `k + 1` frames
drains the charge to 0 with no health loss, removes the sprite, and leaves
no enemies. -/
theorem shield_iter_aux (k : Nat) :
    ∀ s : Scene, s.shieldHP = k + 1 →
      (shieldScenarioStep^[k + 1] s).shieldHP = 0
        ∧ (shieldScenarioStep^[k + 1] s).playerHealth = s.playerHealth
        ∧ (shieldScenarioStep^[k + 1] s).shieldSprite = false
        ∧ (shieldScenarioStep^[k + 1] s).enemies = [] := by
  induction k with
  | zero =>
      intro s hs
      rw [Function.iterate_one, shieldStep_pos s 0 hs]
      simp
  | succ n ih =>
      intro s hs
      rw [Function.iterate_succ_apply, shieldStep_pos s (n + 1) hs]
      exact ih { s with shieldHP := n + 1, shieldSprite := decide (0 < n + 1),
                        enemies := [] } rfl

/-- One `updatePlayer` call initiates at most one transition. -/
theorem initiated_le_one (r : Except Unit UpdateOut) : initiated r ≤ 1 := by
  cases r with
  | error e => exact Nat.zero_le 1
  | ok u =>
      show (if u.pending.isSome = true then 1 else 0) ≤ 1
      split <;> simp

/-- Unfolding of `updatePlayerCore` on a successful move selection. -/
theorem updatePlayerCore_eq (s : Scene) (g : Grid) (i : Inputs) (t : Int) (mv : MoveResult)
    (hsel : selectMove g s.gridX s.gridY i.cursors = .ok mv) :
    updatePlayerCore s g i t
      = .ok ⟨updateShieldAndCollisions
               (if (if mv.moved then { s with lastMoveTime := t } else s).keyPresent
                     && i.keyOverlap
                then { (if mv.moved then { s with lastMoveTime := t } else s) with
                         hasKey := true, keyPresent := false }
                else (if mv.moved then { s with lastMoveTime := t } else s)) i.xJustDown,
             if mv.moved then some (mv.newGridX, mv.newGridY) else none,
             true⟩ := by
  unfold updatePlayerCore
  rw [hsel]

/-- A call that initiates a move records `lastMoveTime = time` at
initiation. -/
theorem updatePlayer_initiated_lastMoveTime (s : Scene) (i : Inputs) (t : Int)
    (h : initiated (updatePlayer s i t) = 1) :
    (afterScene s (updatePlayer s i t)).lastMoveTime = t := by
  unfold updatePlayer at h ⊢
  by_cases hg : t - s.lastMoveTime < MOVEMENT_COOLDOWN
  · rw [if_pos hg] at h
    simp [initiated] at h
  · rw [if_neg hg] at h ⊢
    cases hdg : s.dungeonGrid with
    | none => simp [initiated, hdg] at h
    | some g =>
        rw [hdg] at h
        replace h : initiated (updatePlayerCore s g i t) = 1 := h
        show (afterScene s (updatePlayerCore s g i t)).lastMoveTime = t
        cases hsel : selectMove g s.gridX s.gridY i.cursors with
        | error e =>
            have hco : updatePlayerCore s g i t = .error e := by
              unfold updatePlayerCore
              rw [hsel]
            rw [hco] at h
            simp [initiated] at h
        | ok mv =>
            rw [updatePlayerCore_eq s g i t mv hsel] at h ⊢
            cases hm : mv.moved with
            | false =>
                rw [hm] at h
                simp [initiated] at h
            | true =>
                simp [afterScene, USAC_lastMoveTime]
                split_ifs <;> rfl

/-! ### Claim theorems -/

/-- C1 (counterexample): on a frame with the movement cooldown active
(`time - lastMoveTime = 100 < 200`), and likewise on a frame with the grid
absent, `updatePlayer` returns with the scene untouched and
`collisionsRan = false`, even though an enemy overlaps a shielded player
and the charged ability trigger is pressed — so the Shield & Collision
Resolver and the Ability Charge Gate did NOT run, contradicting the
claim. -/
theorem cooldown_skips_collisions_cex :
    sC1.shieldHP = 1 ∧ sC1.enemies = [(true, true)] ∧ sC1.chargeLevel = 1000
      ∧ updatePlayer sC1 inpX 200 = .ok ⟨sC1, none, false⟩
      ∧ updatePlayer { sC1 with dungeonGrid := none, lastMoveTime := 0 } inpX 300
          = .ok ⟨{ sC1 with dungeonGrid := none, lastMoveTime := 0 }, none, false⟩ := by
  decide

/-- C1 (amended): the Shield & Collision Resolver and Ability Charge Gate
run exactly on the frames that pass the two early-return gates (cooldown
expired AND grid present), and on those frames they run regardless of
whether a movement transition occurred; on gated frames they are skipped
entirely. -/
theorem collisions_run_iff_gates_pass (s : Scene) (i : Inputs) (t : Int) (u : UpdateOut)
    (h : updatePlayer s i t = .ok u) :
    u.collisionsRan = true ↔ (200 ≤ t - s.lastMoveTime ∧ s.dungeonGrid.isSome = true) := by
  unfold updatePlayer at h
  by_cases hg : t - s.lastMoveTime < MOVEMENT_COOLDOWN
  · rw [if_pos hg] at h
    injection h with h'
    constructor
    · intro hc
      rw [← h'] at hc
      simp at hc
    · rintro ⟨hle, hsome⟩
      exact absurd hg (not_lt.mpr hle)
  · rw [if_neg hg] at h
    cases hdg : s.dungeonGrid with
    | none =>
        rw [hdg] at h
        replace h : Except.ok (⟨s, none, false⟩ : UpdateOut) = .ok u := h
        injection h with h'
        constructor
        · intro hc
          rw [← h'] at hc
          simp at hc
        · rintro ⟨hle, hsome⟩
          simp at hsome
    | some g =>
        rw [hdg] at h
        replace h : updatePlayerCore s g i t = .ok u := h
        constructor
        · intro hc
          exact ⟨not_lt.mp hg, rfl⟩
        · intro hrs
          cases hsel : selectMove g s.gridX s.gridY i.cursors with
          | error e =>
              have hco : updatePlayerCore s g i t = .error e := by
                unfold updatePlayerCore
                rw [hsel]
              rw [hco] at h
              simp at h
          | ok mv =>
              rw [updatePlayerCore_eq s g i t mv hsel] at h
              injection h with h'
              rw [← h']

/-- C1 (witness): on a frame passing both gates the resolver ran. -/
theorem collisions_run_iff_gates_pass_witness :
    (⟨baseScene, none, true⟩ : UpdateOut).collisionsRan = true :=
  (collisions_run_iff_gates_pass baseScene inpNone 500 ⟨baseScene, none, true⟩
      (by decide)).mpr (by decide)

/-- C2: the passability predicate is NOT total: `canMove` reads
`dungeonGrid[newY][newX]` before its bounds test, so any `newY` outside
the 12 rows throws (here modeled as `.error ()`), e.g. at (5, 12) and
(5, -1); only an out-of-range column (25, 5) is silently rejected with
`false` as the claim describes. -/
theorem canMove_raises_on_out_of_bounds_row :
    canMove gridBase 5 12 = .error () ∧ canMove gridBase 5 (-1) = .error ()
      ∧ canMove gridBase 25 5 = .ok false := by decide

/-- C3: the committed-cell invariant is violated: standing on a
wind-gust-right tile at (5,5) with floor at (6,5), a wall at (7,5), and the
right arrow held, both the wind displacement and the arrow displacement are
applied (`canMove` validated the arrow only against the current cell), the
tween destination is (7,5), and committing it puts the player's grid cell
on tile code 1 — a member of the collidable set, for which `canMove`
returns false. -/
theorem wind_plus_input_commits_wall :
    jsTile gEx3 5 5 = .ok (some 9)
      ∧ canMove gEx3 6 5 = .ok true
      ∧ canMove gEx3 7 5 = .ok false
      ∧ (updatePlayer sEx3 inpRight 1000).map (fun u => u.pending) = .ok (some (7, 5))
      ∧ (commitMove sEx3 7 5).map (fun r => (r.gridX, r.gridY)) = .ok (7, 5)
      ∧ jsTile gEx3 5 7 = .ok (some 1) := by decide

/-- C4 (counterexample): with a wind push and a valid right arrow in the
same tick, the destination is NOT the wind destination (6,5): the arrow
displacement is applied on top, giving (7,5). -/
theorem wind_and_input_both_apply_cex :
    selectMove gEx4 5 5 cNone = .ok ⟨true, 6, 5⟩
      ∧ selectMove gEx4 5 5 cRight = .ok ⟨true, 7, 5⟩ := by decide

/-- C4 (amended): the wind push is evaluated first and exactly one tween is
produced per tick, but a directional input that is valid in the same tick
(validated against the current cell) additionally alters the destination:
the final cell combines the wind displacement and the input
displacement. -/
theorem wind_then_input_adds (g : Grid) (gx gy wd : Int) (c : Cursors) (d : Dir)
    (hw : windStep g gx gy = .ok (wd, true))
    (hd : dirMove g gx gy c = .ok (some d)) :
    selectMove g gx gy c = .ok ⟨true, gx + wd + dirDx d, gy + dirDy d⟩ := by
  unfold selectMove
  rw [hw, hd]

/-- C4 (witness): the combination at the concrete wind grid. -/
theorem wind_then_input_adds_witness :
    selectMove gEx4 5 5 cRight = .ok ⟨true, 5 + 1 + dirDx .right, 5 + dirDy .right⟩ :=
  wind_then_input_adds gEx4 5 5 1 cRight .right (by decide) (by decide)

/-- C5 (counterexample): with the over state already set and health at -5,
arriving on the spike at (6,5) decrements health again to -25, and
`updatePlayer` still initiates a movement transition — nothing in this
module freezes processing after game over. -/
theorem damage_after_game_over_cex :
    sDead.gameOver = true ∧ sDead.playerHealth = -5
      ∧ (handleTileInteraction sDead 6 5).map (fun r => (r.playerHealth, r.gameOver))
          = .ok (-25, true)
      ∧ initiated (updatePlayer sDead inpRight 1000) = 1 := by decide

/-- C5 (amended): no per-frame entry point of this module checks the over
state: after game over a hazard arrival still subtracts 20 health and an
unshielded enemy overlap still subtracts 10; only the over flag itself is
idempotent (the terminal assignment leaves it true). -/
theorem no_freeze_after_game_over
    (s t : Scene) (g : Grid) (x y : Int)
    (hover : s.gameOver = true) (hg : s.dungeonGrid = some g)
    (htile : jsTile g y x = .ok (some 5))
    (hover2 : t.gameOver = true) (hsh : t.shieldHP = 0)
    (hen : t.enemies = [(true, true)]) :
    (handleTileInteraction s x y).map (fun r => (r.playerHealth, r.gameOver))
        = .ok (s.playerHealth - 20, true)
      ∧ (updateShieldAndCollisions t false).playerHealth = t.playerHealth - 10
      ∧ (updateShieldAndCollisions t false).gameOver = true := by
  have husac := USAC_one_overlap_no_shield t hsh hen
  refine ⟨?_, husac.1, ?_⟩
  · rw [handleTile_hazard s g x y 5 hg htile (Or.inl rfl)]
    simp [Except.map, hover]
  · rw [husac.2.1, hover2]
    simp

/-- C5 (witness): the amended statement at concrete over-state scenes. -/
theorem no_freeze_after_game_over_witness :
    (handleTileInteraction sDead 6 5).map (fun r => (r.playerHealth, r.gameOver))
        = .ok (sDead.playerHealth - 20, true)
      ∧ (updateShieldAndCollisions tDead false).playerHealth = tDead.playerHealth - 10
      ∧ (updateShieldAndCollisions tDead false).gameOver = true :=
  no_freeze_after_game_over sDead tDead gHaz 6 5 (by decide) (by decide) (by decide)
    (by decide) (by decide) (by decide)

/-- C6: two `updatePlayer` calls less than 200 ms apart initiate at most
one grid-cell transition between them, because `lastMoveTime` is recorded
at move initiation; the second call may run on any intermediate scene that
preserves `lastMoveTime` (tween completion never writes it). -/
theorem movement_cooldown_two_calls (s mid : Scene) (i1 i2 : Inputs) (t1 t2 : Int)
    (hlt : t2 - t1 < 200)
    (hmid : mid.lastMoveTime = (afterScene s (updatePlayer s i1 t1)).lastMoveTime) :
    initiated (updatePlayer s i1 t1) + initiated (updatePlayer mid i2 t2) ≤ 1 := by
  by_cases h1 : initiated (updatePlayer s i1 t1) = 1
  · have hlast : (afterScene s (updatePlayer s i1 t1)).lastMoveTime = t1 :=
      updatePlayer_initiated_lastMoveTime s i1 t1 h1
    have hmid' : t2 - mid.lastMoveTime < 200 := by
      rw [hmid, hlast]
      exact hlt
    rw [updatePlayer_gated mid i2 t2 hmid', h1]
    simp [initiated]
  · have h0 : initiated (updatePlayer s i1 t1) = 0 := by
      have := initiated_le_one (updatePlayer s i1 t1)
      omega
    rw [h0]
    simpa using initiated_le_one (updatePlayer mid i2 t2)

/-- C6 (witness): calls at t = 1000 and t = 1100 with the right arrow
held. -/
theorem movement_cooldown_two_calls_witness :
    initiated (updatePlayer baseScene inpRight 1000)
        + initiated (updatePlayer
            (afterScene baseScene (updatePlayer baseScene inpRight 1000)) inpRight 1100)
      ≤ 1 :=
  movement_cooldown_two_calls baseScene
    (afterScene baseScene (updatePlayer baseScene inpRight 1000)) inpRight inpRight
    1000 1100 (by decide) rfl

/-- C7: applying the same power-up kind (shield 19, triple-shot 20,
speed-boost 21, slow-shot 22) twice in sequence leaves its timer/charge
field at the single-application value (3 resp. 30000), never the sum: both
the first and the second application end with the field equal to the fixed
overwrite value. -/
theorem powerup_overwrite_idempotent (s s1 s2 : Scene) (tile : Nat) (x y : Int)
    (hm : tile = 19 ∨ tile = 20 ∨ tile = 21 ∨ tile = 22)
    (h1 : applyPowerUp s tile x y = .ok s1)
    (h2 : applyPowerUp s1 tile x y = .ok s2) :
    powerUpField tile s1 = powerUpValue tile ∧ powerUpField tile s2 = powerUpValue tile :=
  ⟨applyPowerUp_overwrites s s1 tile x y hm h1,
   applyPowerUp_overwrites s1 s2 tile x y hm h2⟩

/-- C7 (witness): collecting triple-shot twice leaves the timer at
30000. -/
theorem powerup_overwrite_idempotent_witness :
    powerUpField 20 sP1 = powerUpValue 20 ∧ powerUpField 20 sP1 = powerUpValue 20 :=
  powerup_overwrite_idempotent baseScene sP1 sP1 20 4 4 (Or.inr (Or.inl rfl))
    (by decide) (by decide)

/-- C8: with shield charge N > 0, N frames each bringing one overlapping
enemy drain the charge to exactly 0, destroy every enemy, cost no health,
and remove the shield visual within the frame the charge reaches 0; the
(N+1)-th overlap destroys the enemy and costs 10 health. -/
theorem shield_absorbs_then_health (N : Nat) (s : Scene) (hN : 0 < N)
    (hs : s.shieldHP = N) :
    (shieldScenarioStep^[N] s).shieldHP = 0
      ∧ (shieldScenarioStep^[N] s).playerHealth = s.playerHealth
      ∧ (shieldScenarioStep^[N] s).shieldSprite = false
      ∧ (shieldScenarioStep^[N] s).enemies = []
      ∧ (shieldScenarioStep^[N + 1] s).playerHealth = s.playerHealth - 10
      ∧ (shieldScenarioStep^[N + 1] s).enemies = [] := by
  obtain ⟨k, rfl⟩ : ∃ k, N = k + 1 := ⟨N - 1, (Nat.succ_pred_eq_of_pos hN).symm⟩
  have h := shield_iter_aux k s hs
  refine ⟨h.1, h.2.1, h.2.2.1, h.2.2.2, ?_, ?_⟩
  · rw [Function.iterate_succ_apply']
    have hz := shieldStep_zero_proj _ h.1
    rw [hz.1, h.2.1]
  · rw [Function.iterate_succ_apply']
    exact (shieldStep_zero_proj _ h.1).2

/-- C8 (witness): two charges absorb two overlaps; the third costs 10
health. -/
theorem shield_absorbs_then_health_witness :
    (shieldScenarioStep^[2] sShield).shieldHP = 0
      ∧ (shieldScenarioStep^[2] sShield).playerHealth = sShield.playerHealth
      ∧ (shieldScenarioStep^[2] sShield).shieldSprite = false
      ∧ (shieldScenarioStep^[2] sShield).enemies = []
      ∧ (shieldScenarioStep^[2 + 1] sShield).playerHealth = sShield.playerHealth - 10
      ∧ (shieldScenarioStep^[2 + 1] sShield).enemies = [] :=
  shield_absorbs_then_health 2 sShield (by decide) (by decide)

/-- C9 (counterexample): hazard damage is not clamped at 0: at health 15,
landing on the spike at (6,5) stores health -5 < 0. -/
theorem hazard_drives_health_below_zero_cex :
    sLow.playerHealth = 15
      ∧ (handleTileInteraction sLow 6 5).map (fun r => r.playerHealth) = .ok (-5) := by
  decide

/-- C9 (amended): the heal power-up clamps health at the upper bound 100
(`min (health + 25) 100`), but hazard damage (-20) and enemy-collision
damage (-10) are plain subtractions with no lower clamp: the stored value
can drop below 0 (the terminal transition fires then). -/
theorem health_upper_clamp_no_lower_clamp
    (s s' t u : Scene) (x y x2 y2 : Int) (g : Grid)
    (h1 : applyPowerUp s 23 x y = .ok s')
    (hg : t.dungeonGrid = some g) (ht : jsTile g y2 x2 = .ok (some 8))
    (hu1 : u.shieldHP = 0) (hu2 : u.enemies = [(true, true)]) :
    (s'.playerHealth = min (s.playerHealth + 25) 100 ∧ s'.playerHealth ≤ 100)
      ∧ (handleTileInteraction t x2 y2).map (fun r => r.playerHealth)
          = .ok (t.playerHealth - 20)
      ∧ (updateShieldAndCollisions u false).playerHealth = u.playerHealth - 10 := by
  refine ⟨?_, ?_, (USAC_one_overlap_no_shield u hu1 hu2).1⟩
  · unfold applyPowerUp at h1
    cases hdg : s.dungeonGrid with
    | none => rw [hdg] at h1; simp at h1
    | some g0 =>
        rw [hdg] at h1
        cases hsc : setCellJS g0 y x 0 with
        | error e => simp [hsc] at h1
        | ok g' =>
            simp [hsc] at h1
            subst h1
            exact ⟨rfl, min_le_right _ _⟩
  · rw [handleTile_hazard t g x2 y2 8 hg ht (Or.inr rfl)]
    rfl

/-- C9 (witness): heal at full health stays 100; hazard at 15 goes to -5;
overlap at 100 goes to 90. -/
theorem health_upper_clamp_no_lower_clamp_witness :
    (baseScene.playerHealth = min (baseScene.playerHealth + 25) 100
        ∧ baseScene.playerHealth ≤ 100)
      ∧ (handleTileInteraction tFire 6 5).map (fun r => r.playerHealth)
          = .ok (tFire.playerHealth - 20)
      ∧ (updateShieldAndCollisions uOver false).playerHealth = uOver.playerHealth - 10 :=
  health_upper_clamp_no_lower_clamp baseScene baseScene tFire uOver 4 4 6 5 gFire
    (by decide) (by decide) (by decide) (by decide) (by decide)

/-- C10: a press with charge below 1000 changes nothing (the pressed and
unpressed frames are identical); a press with charge at or above 1000
clears all enemies and enemy projectiles and resets the charge to 0; and
the effect fires exactly once per press — after firing, a further frame
(with or without the trigger) leaves the state fixed, since the charge was
reset. -/
theorem ability_gate_threshold (s t : Scene)
    (hs : s.chargeLevel < 1000) (ht : 1000 ≤ t.chargeLevel) :
    updateShieldAndCollisions s true = updateShieldAndCollisions s false
      ∧ (updateShieldAndCollisions t true).enemies = []
      ∧ (updateShieldAndCollisions t true).enemyProjectiles = 0
      ∧ (updateShieldAndCollisions t true).chargeLevel = 0
      ∧ updateShieldAndCollisions (updateShieldAndCollisions t true) true
          = updateShieldAndCollisions t true
      ∧ updateShieldAndCollisions (updateShieldAndCollisions t true) false
          = updateShieldAndCollisions t true := by
  have hsc : (resolveEnemies (updateShieldVisual s)).chargeLevel < 1000 := by
    rw [preGate_chargeLevel]
    exact hs
  have htc : 1000 ≤ (resolveEnemies (updateShieldVisual t)).chargeLevel := by
    rw [preGate_chargeLevel]
    exact ht
  have hfire : updateShieldAndCollisions t true
      = { resolveEnemies (updateShieldVisual t) with
            enemies := [], enemyProjectiles := 0, chargeLevel := 0 } := by
    unfold updateShieldAndCollisions
    exact abilityGate_fire _ htc
  have hnoop : ∀ b, updateShieldAndCollisions (updateShieldAndCollisions t true) b
      = updateShieldAndCollisions t true := by
    intro b
    refine USAC_noop _ ?_ ?_ ?_ b
    · rw [hfire]
    · rw [hfire]
      show (0 : Int) < 1000
      decide
    · exact USAC_sprite_inv t true
  refine ⟨?_, by rw [hfire], by rw [hfire], by rw [hfire], hnoop true, hnoop false⟩
  show abilityGate (resolveEnemies (updateShieldVisual s)) true
      = abilityGate (resolveEnemies (updateShieldVisual s)) false
  rw [abilityGate_below _ true hsc, abilityGate_below _ false hsc]

/-- C10 (witness): charge 999 vs charge 1000 at concrete scenes. -/
theorem ability_gate_threshold_witness :
    updateShieldAndCollisions s999 true = updateShieldAndCollisions s999 false
      ∧ (updateShieldAndCollisions t1000 true).enemies = []
      ∧ (updateShieldAndCollisions t1000 true).enemyProjectiles = 0
      ∧ (updateShieldAndCollisions t1000 true).chargeLevel = 0
      ∧ updateShieldAndCollisions (updateShieldAndCollisions t1000 true) true
          = updateShieldAndCollisions t1000 true
      ∧ updateShieldAndCollisions (updateShieldAndCollisions t1000 true) false
          = updateShieldAndCollisions t1000 true :=
  ability_gate_threshold s999 t1000 (by decide) (by decide)

end DungeonCrawler
